import Mathlib

/-!
Verification of the authoritative server-side simulation of the GoatRampage
repository, shallowly embedded from the TypeScript source (shared schema,
server routes and in-memory storage).

Conventions of the embedding:

* JS numbers are modelled as rationals (`ℚ`).
* `Math.random()` is modelled as an explicit stream `rand : ℕ → ℚ` together
  with a counter that is threaded through the computation; consecutive calls
  to `Math.random()` read `rand c`, `rand (c+1)`, ... .
* `Math.sqrt` is modelled as an explicit function parameter `sqrtFn : ℚ → ℚ`
  (the real square root is not rational); theorems about collision tests and
  walked distance quantify over it or constrain it pointwise.
* `Math.cos`, `Math.sin` and `Math.PI` (used only for house placement in
  `generateInitialEnvironment`) are likewise explicit parameters.
* The `Map` of players is modelled as a list in insertion order with the
  `Map.set` / `Map.delete` semantics made explicit; the statistics maps are
  association lists.
* `setTimeout`-based respawn scheduling is modelled by returning, from a tick,
  the list of `(delay, object)` pairs whose callbacks were scheduled; firing a
  timer pushes the captured object into the environment (`fireRespawn`).
* Calls to the persistence gateway (`storage.updatePlayerStats`) from inside
  the tick are fire-and-forget and do not touch the in-memory game state, so
  they are not reflected in the state returned by `updateGameState`.
-/

/-- `EntityType` from `shared/schema.ts`. -/
inductive EntityType where
  | player
  | fence
  | hay_bale
  | barn
  | house
  | car
  deriving DecidableEq, Repr

/-- `PlayerState` from `shared/schema.ts`: the in-session player record. -/
structure PlayerState where
  id : String
  tag : String
  x : ℚ
  y : ℚ
  direction : ℚ
  health : ℚ
  score : ℚ
  isCharging : Bool
  damageDealt : ℚ
  distanceWalked : ℚ
  lastPosition : Option (ℚ × ℚ)
  deriving DecidableEq, Repr

/-- `EnvironmentObject` from `shared/schema.ts`. -/
structure EnvironmentObject where
  id : String
  type : EntityType
  x : ℚ
  y : ℚ
  width : ℚ
  height : ℚ
  health : ℚ
  respawnTime : Option ℚ
  deriving DecidableEq, Repr

/-- `GameState` from `shared/schema.ts`: players keyed by id (insertion
order), environment list, and the statistics maps. -/
structure GameState where
  players : List PlayerState
  environment : List EnvironmentObject
  statsDamage : List (String × ℚ)
  statsDistance : List (String × ℚ)
  deriving DecidableEq, Repr

/-- The client→server `GameEvent` union from `shared/schema.ts`. -/
inductive GameEvent where
  | join (tag : String)
  | move (x y : ℚ)
  | charge (active : Bool)
  | damage (target : String) (amount : ℚ)
  | destroy (objectId : String)
  | leave
  deriving DecidableEq, Repr

/-- The explicit sources of nondeterminism consumed by a tick:
`rand` models the `Math.random()` stream and `sqrtFn` models `Math.sqrt`. -/
structure TickCtx where
  rand : ℕ → ℚ
  sqrtFn : ℚ → ℚ

/-- `Map.set` semantics for the statistics association lists: replace the
entry with the given key in place, or append a fresh one. -/
def statsSet : List (String × ℚ) → String → ℚ → List (String × ℚ)
  | [], k, v => [(k, v)]
  | (k0, v0) :: rest, k, v =>
    if k0 = k then (k, v) :: rest else (k0, v0) :: statsSet rest k v

/-- `Map.set` semantics for `gameState.players`: replace the player whose id
matches, keeping its position in insertion order, or append. -/
def playerMapSet : List PlayerState → PlayerState → List PlayerState
  | [], p => [p]
  | q :: qs, p => if q.id = p.id then p :: qs else q :: playerMapSet qs p

/-- `RESPAWN_TIME` from `server/routes.ts` (two minutes, in milliseconds). -/
def RESPAWN_TIME : ℚ := 120000

/-- `generateInitialEnvironment` from `server/routes.ts` (the 2000×1500 map
revision): perimeter fences, 20 hay bales, 8 houses, 3 barns, 5 cars.
`Math.random()` draws are read off `rand` in call order: the 20 hay bales
consume draws `0..39` and the 5 cars consume draws `40..49`. -/
def generateInitialEnvironment (piV : ℚ) (cosFn sinFn : ℚ → ℚ) (rand : ℕ → ℚ) :
    List EnvironmentObject :=
  ((List.range 20).flatMap fun i =>
    [{ id := "fence-top-" ++ toString (100 * i), type := EntityType.fence,
       x := ((100 * i : ℕ) : ℚ), y := 0, width := 100, height := 20,
       health := 100, respawnTime := none },
     { id := "fence-bottom-" ++ toString (100 * i), type := EntityType.fence,
       x := ((100 * i : ℕ) : ℚ), y := 1500 - 20, width := 100, height := 20,
       health := 100, respawnTime := none }])
  ++ ((List.range 15).flatMap fun i =>
    [{ id := "fence-left-" ++ toString (100 * i), type := EntityType.fence,
       x := 0, y := ((100 * i : ℕ) : ℚ), width := 20, height := 100,
       health := 100, respawnTime := none },
     { id := "fence-right-" ++ toString (100 * i), type := EntityType.fence,
       x := 2000 - 20, y := ((100 * i : ℕ) : ℚ), width := 20, height := 100,
       health := 100, respawnTime := none }])
  ++ ((List.range 20).map fun i =>
    { id := "hay-" ++ toString i, type := EntityType.hay_bale,
      x := rand (2 * i) * (2000 - 200) + 100, y := rand (2 * i + 1) * (1500 - 200) + 100,
      width := 40, height := 40, health := 100, respawnTime := some RESPAWN_TIME })
  ++ ((List.range 8).map fun i =>
    { id := "house-" ++ toString i, type := EntityType.house,
      x := 1000 + cosFn (((i : ℚ) / 8) * piV * 2) * 250,
      y := 750 + sinFn (((i : ℚ) / 8) * piV * 2) * 250,
      width := 100, height := 100, health := 200, respawnTime := none })
  ++ ((List.range 3).map fun i =>
    { id := "barn-" ++ toString i, type := EntityType.barn,
      x := 500 + ((i : ℚ) * 150) - 150, y := 375,
      width := 120, height := 80, health := 150, respawnTime := some (RESPAWN_TIME * 2) })
  ++ ((List.range 5).map fun i =>
    { id := "car-" ++ toString i, type := EntityType.car,
      x := rand (40 + 2 * i) * (2000 - 400) + 200, y := rand (41 + 2 * i) * (1500 - 400) + 200,
      width := 60, height := 30, health := 80, respawnTime := some RESPAWN_TIME })

/-- The removal test of the environment filter at the top of
`updateGameState`: `obj.health <= 0 && obj.respawnTime` (a missing
`respawnTime` is falsy, so such objects are kept). A present `respawnTime`
is modelled as truthy; the generator only ever sets it to 120000 or 240000,
so the JS corner case of a falsy `respawnTime: 0` never arises. -/
def shouldRemove (o : EnvironmentObject) : Bool :=
  decide (o.health ≤ 0) && o.respawnTime.isSome

/-- The object pushed back by the scheduled respawn callback:
`{ ...obj, health: 100 }`. -/
def respawnedObject (o : EnvironmentObject) : EnvironmentObject :=
  { o with health := 100 }

/-- The environment maintenance step of `updateGameState`: filter out
destroyed objects that have a `respawnTime`, and for each of them record the
`setTimeout` scheduling of `{ ...obj, health: 100 }` after `obj.respawnTime`
milliseconds. Returns the kept objects and the scheduled `(delay, object)`
pairs in traversal order. -/
def updateEnvironment (env : List EnvironmentObject) :
    List EnvironmentObject × List (ℚ × EnvironmentObject) :=
  (env.filter fun o => !shouldRemove o,
   (env.filter shouldRemove).map fun o => (o.respawnTime.getD 0, respawnedObject o))

/-- Firing a scheduled respawn callback: `state.environment.push({...obj,
health: 100})` appends the captured object to the active set. -/
def fireRespawn (st : GameState) (e : ℚ × EnvironmentObject) : GameState :=
  { st with environment := st.environment ++ [e.2] }

/-- The AABB overlap test between a player's fixed 25-unit hit half-width and
an environment object's box, from the environment collision loop of
`updateGameState`. -/
def Overlap (p : PlayerState) (o : EnvironmentObject) : Prop :=
  p.x + 25 > o.x ∧ p.x - 25 < o.x + o.width ∧ p.y + 25 > o.y ∧ p.y - 25 < o.y + o.height

instance (p : PlayerState) (o : EnvironmentObject) : Decidable (Overlap p o) := by
  unfold Overlap; infer_instance

/-- The per-type score bonus of the environment collision loop: the `if/else`
chain awards 1 for a hay bale, 2 for a car, 5 for a barn, and nothing for any
other type (house, fence). -/
def envScoreBonus : EntityType → ℚ
  | EntityType.hay_bale => 1
  | EntityType.car => 2
  | EntityType.barn => 5
  | _ => 0

/-- Body of the environment collision loop of `updateGameState` for one
charging player and one object: on AABB overlap, if the player is charging,
the object loses 5 health and the player's score grows by the per-type
bonus. -/
def envHit (p : PlayerState) (o : EnvironmentObject) :
    PlayerState × EnvironmentObject :=
  if Overlap p o then
    if p.isCharging then
      ({ p with score := p.score + envScoreBonus o.type },
       { o with health := o.health - 5 })
    else (p, o)
  else (p, o)

/-- The whole `state.environment.forEach` pass for one player: thread the
player through `envHit` over the environment list in order. -/
def envCollisions : PlayerState → List EnvironmentObject →
    PlayerState × List EnvironmentObject
  | p, [] => (p, [])
  | p, o :: os =>
    let po := envHit p o
    let rest := envCollisions po.1 os
    (rest.1, po.2 :: rest.2)

/-- Body of the inner `players.forEach(otherPlayer => ...)` combat loop of
`updateGameState`, for attacker index `i` and defender index `j`: skip self
(by id), test Euclidean distance against the 50-unit threshold, apply 10
damage, award score and damageDealt, record the damage statistic, and on a
kill reset the defender to health 100 at a fresh random position and award
the 50-point defeat bonus. The fire-and-forget `storage.updatePlayerStats`
call made here does not touch the game state and is not modelled. -/
def applyPlayerHit (ctx : TickCtx) (st : GameState) (cnt : ℕ) (i j : ℕ) :
    GameState × ℕ :=
  match st.players[i]?, st.players[j]? with
  | some p, some q =>
    if p.id = q.id then (st, cnt)
    else
      let dx := p.x - q.x
      let dy := p.y - q.y
      let distance := ctx.sqrtFn (dx * dx + dy * dy)
      if distance < 50 then
        let damage : ℚ := 10
        let q1 := { q with health := q.health - damage }
        let p1 := { p with score := p.score + damage,
                           damageDealt := p.damageDealt + damage }
        let sd1 := statsSet st.statsDamage p1.id p1.damageDealt
        if q1.health ≤ 0 then
          let q2 := { q1 with health := 100,
                              x := ctx.rand cnt * 800 + 100,
                              y := ctx.rand (cnt + 1) * 600 + 100 }
          let p2 := { p1 with score := p1.score + 50 }
          ({ st with players := (st.players.set i p2).set j q2,
                     statsDamage := sd1 }, cnt + 2)
        else
          ({ st with players := (st.players.set i p1).set j q1,
                     statsDamage := sd1 }, cnt)
      else (st, cnt)
  | _, _ => (st, cnt)

/-- The inner combat loop for attacker index `i`: fold `applyPlayerHit` over
all indices of the snapshot array. -/
def combatPass (ctx : TickCtx) (st : GameState) (cnt : ℕ) (i : ℕ) :
    GameState × ℕ :=
  (List.range st.players.length).foldl
    (fun acc j => applyPlayerHit ctx acc.1 acc.2 i j) (st, cnt)

/-- The environment collision pass for the player at index `i`. -/
def envPass (st : GameState) (i : ℕ) : GameState :=
  match st.players[i]? with
  | some p =>
    let pe := envCollisions p st.environment
    { st with players := st.players.set i pe.1, environment := pe.2 }
  | none => st

/-- Body of the outer `players.forEach(player => ...)` loop of
`updateGameState` for the player at index `i`: initialize `lastPosition` and
return early if it is unset; otherwise accumulate `distanceWalked` by the
Euclidean displacement since `lastPosition`, record the distance statistic,
refresh `lastPosition`, and if the player is charging run the combat loop and
the environment collision loop. The periodic fire-and-forget
`storage.updatePlayerStats` distance report does not touch the game state and
is not modelled. -/
def playerTick (ctx : TickCtx) (st : GameState) (cnt : ℕ) (i : ℕ) :
    GameState × ℕ :=
  match st.players[i]? with
  | none => (st, cnt)
  | some p =>
    match p.lastPosition with
    | none =>
      ({ st with players := st.players.set i { p with lastPosition := some (p.x, p.y) } },
       cnt)
    | some lp =>
      let dx := p.x - lp.1
      let dy := p.y - lp.2
      let distanceMoved := ctx.sqrtFn (dx * dx + dy * dy)
      let p1 := { p with distanceWalked := p.distanceWalked + distanceMoved,
                         lastPosition := some (p.x, p.y) }
      let st1 := { st with players := st.players.set i p1,
                           statsDistance := statsSet st.statsDistance p1.id p1.distanceWalked }
      if p1.isCharging then
        let sc := combatPass ctx st1 cnt i
        (envPass sc.1 i, sc.2)
      else (st1, cnt)

/-- `updateGameState` from `server/routes.ts`: one tick of the authoritative
simulation. First the environment filter (recording the scheduled respawns),
then the outer player loop over the snapshot array of players. Returns the
new state, the advanced random counter, and the `(delay, object)` respawn
callbacks scheduled during the tick. -/
def updateGameState (ctx : TickCtx) (st : GameState) (cnt : ℕ) :
    GameState × ℕ × List (ℚ × EnvironmentObject) :=
  let envs := updateEnvironment st.environment
  let st0 := { st with environment := envs.1 }
  let out := (List.range st0.players.length).foldl
    (fun acc i => playerTick ctx acc.1 acc.2 i) (st0, cnt)
  (out.1, out.2, envs.2)

/-- A persisted player record (`players` table of `shared/schema.ts`). -/
structure StoredPlayer where
  id : ℕ
  tag : String
  totalDamageDealt : ℚ
  totalDistanceWalked : ℚ
  deriving DecidableEq, Repr

/-- `MemStorage` from `server/storage.ts`: the persisted records and the
auto-increment id counter. -/
structure Storage where
  players : List StoredPlayer
  currentId : ℕ
  deriving DecidableEq, Repr

/-- `MemStorage.createPlayer`. -/
def createPlayer (s : Storage) (tag : String) : StoredPlayer × Storage :=
  let p : StoredPlayer := { id := s.currentId, tag := tag,
                            totalDamageDealt := 0, totalDistanceWalked := 0 }
  (p, { players := s.players ++ [p], currentId := s.currentId + 1 })

/-- `MemStorage.getPlayerByTag`: find the persisted record with this tag. -/
def getPlayerByTag (s : Storage) (tag : String) : Option StoredPlayer :=
  s.players.find? fun p => p.tag == tag

/-- `handlePlayerJoin` from `server/routes.ts`: resolve the tag to an
existing persisted record or create one. -/
def handlePlayerJoin (s : Storage) (tag : String) : StoredPlayer × Storage :=
  match getPlayerByTag s tag with
  | some p => (p, s)
  | none => createPlayer s tag

/-- The fresh in-session player built by the `join` handler: random spawn
position, health 100, score 0, not charging, and a `lastPosition` drawn from
two further independent `Math.random()` calls (draws `cnt+2`, `cnt+3`). -/
def joinPlayer (pid : String) (tag : String) (rand : ℕ → ℚ) (cnt : ℕ) :
    PlayerState × ℕ :=
  ({ id := pid, tag := tag,
     x := rand cnt * 800 + 100, y := rand (cnt + 1) * 600 + 100,
     direction := 0, health := 100, score := 0, isCharging := false,
     damageDealt := 0, distanceWalked := 0,
     lastPosition := some (rand (cnt + 2) * 800 + 100, rand (cnt + 3) * 600 + 100) },
   cnt + 4)

/-- The `join` branch of the message handler: resolve the persisted identity,
key the session player by `player.id.toString()`, insert it with `Map.set`
(replacing any player already stored under that id), and zero the statistics
entries. Returns the new game state, the new storage, the bound player id and
the advanced random counter. -/
def joinGame (st : GameState) (stg : Storage) (tag : String)
    (rand : ℕ → ℚ) (cnt : ℕ) : GameState × Storage × String × ℕ :=
  let rs := handlePlayerJoin stg tag
  let pid := toString rs.1.id
  let pj := joinPlayer pid tag rand cnt
  ({ st with players := playerMapSet st.players pj.1,
             statsDamage := statsSet st.statsDamage pid 0,
             statsDistance := statsSet st.statsDistance pid 0 },
   rs.2, pid, pj.2)

/-- The non-join branches of the `ws.on('message')` switch, given the id
bound to the connection (if any): `move` and `charge` mutate the bound player
if present, `leave` deletes it; `damage` and `destroy` have no case in the
switch and fall through; `join` is handled by `joinGame` and is the identity
here. -/
def handleEvent (st : GameState) (boundId : Option String) :
    GameEvent → GameState
  | GameEvent.move x y =>
    match boundId with
    | some pid =>
      if st.players.any (fun p => p.id == pid) then
        { st with players := st.players.map fun p =>
            if p.id == pid then { p with x := x, y := y } else p }
      else st
    | none => st
  | GameEvent.charge active =>
    match boundId with
    | some pid =>
      if st.players.any (fun p => p.id == pid) then
        { st with players := st.players.map fun p =>
            if p.id == pid then { p with isCharging := active } else p }
      else st
    | none => st
  | GameEvent.leave =>
    match boundId with
    | some pid => { st with players := st.players.filter fun p => !(p.id == pid) }
    | none => st
  | _ => st

/-! ## General helper lemmas -/

/-- An element read off a list by index is a member of the list. -/
theorem getElem?_some_mem {α : Type _} {l : List α} {i : ℕ} {a : α}
    (h : l[i]? = some a) : a ∈ l := by
  induction l generalizing i with
  | nil => simp at h
  | cons b bs ih =>
    cases i with
    | zero =>
      simp only [List.getElem?_cons_zero, Option.some.injEq] at h
      exact h ▸ List.mem_cons_self b bs
    | succ n =>
      rw [List.getElem?_cons_succ] at h
      exact List.mem_cons_of_mem _ (ih h)

/-! ## Example constants used by concrete instances -/

/-- A deterministic context for concrete examples: every `Math.random()`
draw returns 0 and `Math.sqrt` returns 0. -/
def ctx0 : TickCtx := { rand := fun _ => 0, sqrtFn := fun _ => 0 }

/-- A concrete charging player sitting near the map origin. -/
def cexChargingPlayer : PlayerState :=
  { id := "a", tag := "goat", x := 10, y := 10, direction := 0, health := 100,
    score := 7, isCharging := true, damageDealt := 0, distanceWalked := 0,
    lastPosition := some (10, 10) }

/-- A concrete house (no `respawnTime`), as generated. -/
def cexHouse : EnvironmentObject :=
  { id := "house-0", type := EntityType.house, x := 0, y := 0, width := 100,
    height := 100, health := 200, respawnTime := none }

/-- A concrete perimeter fence, as generated. -/
def cexFence : EnvironmentObject :=
  { id := "fence-top-0", type := EntityType.fence, x := 0, y := 0, width := 100,
    height := 20, health := 100, respawnTime := none }

/-- A concrete generated barn after destruction (health 0, respawn delay
`2 * RESPAWN_TIME = 240000` ms). -/
def cexDestroyedBarn : EnvironmentObject :=
  { id := "barn-0", type := EntityType.barn, x := 350, y := 375, width := 120,
    height := 80, health := 0, respawnTime := some 240000 }

/-- A destroyed house with no respawn delay. -/
def cexDeadHouse : EnvironmentObject :=
  { id := "house-0", type := EntityType.house, x := 0, y := 0, width := 100,
    height := 100, health := 0, respawnTime := none }

/-- A state holding only the destroyed house. -/
def cexDeadHouseState : GameState :=
  { players := [], environment := [cexDeadHouse], statsDamage := [],
    statsDistance := [] }

/-- The empty world state at process start, before any environment
generation. -/
def emptyGameState : GameState :=
  { players := [], environment := [], statsDamage := [], statsDistance := [] }

/-- A fresh `MemStorage`. -/
def emptyStorage : Storage := { players := [], currentId := 1 }

/-! ## C10 -/

/-- C10: on a connection for which no join has completed (no player id
bound), a `move`, `charge`, or `leave` message leaves the world state —
player map, every player record, and environment — entirely unchanged. -/
theorem unbound_messages_leave_state_unchanged (st : GameState) (x y : ℚ)
    (active : Bool) :
    handleEvent st none (GameEvent.move x y) = st ∧
    handleEvent st none (GameEvent.charge active) = st ∧
    handleEvent st none GameEvent.leave = st :=
  ⟨rfl, rfl, rfl⟩

/-! ## C6 -/

/-- C6 (amended): on AABB overlap with a charging player an environment
object loses exactly 5 health and the attacker's score grows by the
per-type bonus, which is 1 for a hay bale, 2 for a car, 5 for a barn and 0
for a house or a fence (so the bonuses are not distinct across the closed
type set); a non-charging player inflicts no damage and gains no score. -/
theorem env_hit_damage_and_bonus (p : PlayerState) (o : EnvironmentObject) :
    ((envHit p o).2.health =
      if Overlap p o ∧ p.isCharging = true then o.health - 5 else o.health) ∧
    ((envHit p o).1.score =
      if Overlap p o ∧ p.isCharging = true then p.score + envScoreBonus o.type
      else p.score) ∧
    (envHit p o).2.id = o.id ∧ (envHit p o).1.health = p.health ∧
    envScoreBonus EntityType.hay_bale = 1 ∧
    envScoreBonus EntityType.car = 2 ∧
    envScoreBonus EntityType.barn = 5 ∧
    envScoreBonus EntityType.house = 0 ∧
    envScoreBonus EntityType.fence = 0 := by
  unfold envHit
  split_ifs with h1 h2 <;> simp_all [envScoreBonus]

/-- C6 counterexample: a charging player overlapping a house damages it by 5
but receives no score increase, and the house bonus equals the fence bonus
(both 0), so the per-object-type bonuses are not distinct constants. -/
theorem house_overlap_awards_no_bonus :
    (envHit cexChargingPlayer cexHouse).1.score = cexChargingPlayer.score ∧
    (envHit cexChargingPlayer cexHouse).2.health = cexHouse.health - 5 ∧
    envScoreBonus EntityType.house = envScoreBonus EntityType.fence := by
  have hov : Overlap cexChargingPlayer cexHouse := by
    refine ⟨?_, ?_, ?_, ?_⟩ <;> norm_num [cexChargingPlayer, cexHouse]
  refine ⟨?_, ?_, rfl⟩
  · rw [envHit, if_pos hov, if_pos (show cexChargingPlayer.isCharging = true from rfl)]
    simp [envScoreBonus, cexHouse]
  · rw [envHit, if_pos hov, if_pos (show cexChargingPlayer.isCharging = true from rfl)]

/-! ## C9 counterexample -/

/-- C9 counterexample: fences are not indestructible — a collision with a
charging player lowers a fence's health from 100 to 95. -/
theorem fence_takes_damage :
    cexFence.type = EntityType.fence ∧ cexFence.health = 100 ∧
    (envHit cexChargingPlayer cexFence).2.health = 95 := by
  have hov : Overlap cexChargingPlayer cexFence := by
    refine ⟨?_, ?_, ?_, ?_⟩ <;> norm_num [cexChargingPlayer, cexFence]
  refine ⟨rfl, rfl, ?_⟩
  rw [envHit, if_pos hov, if_pos (show cexChargingPlayer.isCharging = true from rfl)]
  norm_num [cexFence]

/-! ## C4 -/

/-- C4 counterexample: a destroyed barn (creation health 150) is scheduled to
respawn with health 100, not with its full creation health of 150. -/
theorem barn_respawns_at_100_not_150 :
    (updateEnvironment [cexDestroyedBarn]).1 = [] ∧
    (updateEnvironment [cexDestroyedBarn]).2 =
      [(240000, { cexDestroyedBarn with health := 100 })] ∧
    ({ cexDestroyedBarn with health := 100 } : EnvironmentObject).health ≠ 150 := by
  refine ⟨?_, ?_, by norm_num⟩ <;>
    simp [updateEnvironment, shouldRemove, cexDestroyedBarn, respawnedObject]

/-- C4 (amended): a destroyed object with a respawn delay is removed from
the active set and a respawn is scheduled after exactly its delay; the
respawned object keeps the same id and bounding box but its health is reset
to the constant 100 — not to its creation health — and firing the timer
reinserts it into the active set. -/
theorem destroyed_object_respawn_schedule (env : List EnvironmentObject)
    (obj : EnvironmentObject) (d : ℚ) (st : GameState)
    (hmem : obj ∈ env) (hdead : obj.health ≤ 0)
    (hdelay : obj.respawnTime = some d) :
    obj ∉ (updateEnvironment env).1 ∧
    (d, respawnedObject obj) ∈ (updateEnvironment env).2 ∧
    (respawnedObject obj).health = 100 ∧
    (respawnedObject obj).id = obj.id ∧
    (respawnedObject obj).x = obj.x ∧ (respawnedObject obj).y = obj.y ∧
    (respawnedObject obj).width = obj.width ∧
    (respawnedObject obj).height = obj.height ∧
    respawnedObject obj ∈ (fireRespawn st (d, respawnedObject obj)).environment := by
  have hrem : shouldRemove obj = true := by
    simp [shouldRemove, hdead, hdelay]
  refine ⟨?_, ?_, rfl, rfl, rfl, rfl, rfl, rfl, ?_⟩
  · intro hmem2
    rw [updateEnvironment] at hmem2
    simp only [List.mem_filter] at hmem2
    rw [hrem] at hmem2
    simp at hmem2
  · rw [updateEnvironment]
    exact List.mem_map.mpr ⟨obj, List.mem_filter.mpr ⟨hmem, hrem⟩, by simp [hdelay]⟩
  · simp [fireRespawn]

/-- Witness for `destroyed_object_respawn_schedule` at the destroyed barn. -/
theorem destroyed_object_respawn_schedule_witness :
    (cexDestroyedBarn ∈ [cexDestroyedBarn] ∧ cexDestroyedBarn.health ≤ 0 ∧
      cexDestroyedBarn.respawnTime = some 240000) ∧
    (cexDestroyedBarn ∉ (updateEnvironment [cexDestroyedBarn]).1 ∧
     (240000, respawnedObject cexDestroyedBarn) ∈ (updateEnvironment [cexDestroyedBarn]).2 ∧
     (respawnedObject cexDestroyedBarn).health = 100 ∧
     (respawnedObject cexDestroyedBarn).id = cexDestroyedBarn.id ∧
     (respawnedObject cexDestroyedBarn).x = cexDestroyedBarn.x ∧
     (respawnedObject cexDestroyedBarn).y = cexDestroyedBarn.y ∧
     (respawnedObject cexDestroyedBarn).width = cexDestroyedBarn.width ∧
     (respawnedObject cexDestroyedBarn).height = cexDestroyedBarn.height ∧
     respawnedObject cexDestroyedBarn ∈
       (fireRespawn emptyGameState (240000, respawnedObject cexDestroyedBarn)).environment) :=
  ⟨⟨by decide, by decide, by decide⟩,
   destroyed_object_respawn_schedule [cexDestroyedBarn] cexDestroyedBarn 240000
     emptyGameState (by decide) (by decide) (by decide)⟩

/-! ## C5 counterexample -/

/-- C5 counterexample: an object with no `respawnTime` whose health reached 0
is NOT removed by the tick — after `updateGameState` it is still present in
the active (broadcast) environment. -/
theorem destroyed_house_still_broadcast :
    cexDeadHouse.health ≤ 0 ∧ cexDeadHouse.respawnTime = none ∧
    (updateGameState ctx0 cexDeadHouseState 0).1.environment = [cexDeadHouse] := by
  refine ⟨by decide, rfl, ?_⟩
  simp [updateGameState, updateEnvironment, cexDeadHouseState, shouldRemove,
    cexDeadHouse]

/-! ## C8 -/

/-- Two consecutive joins with the same tag on a fresh world and fresh
storage: the state after the join handler has run twice. -/
def doubleJoin (tag : String) (rand : ℕ → ℚ) (cnt : ℕ) :
    GameState × Storage × String × ℕ :=
  joinGame (joinGame emptyGameState emptyStorage tag rand cnt).1
    (joinGame emptyGameState emptyStorage tag rand cnt).2.1 tag rand
    (joinGame emptyGameState emptyStorage tag rand cnt).2.2.2

/-- C8 (amended): two successful joins with the same tag resolve to the same
single persisted record (the second join creates no new record, the storage
is unchanged) and hence to the same session key `player.id.toString()`, so
the second join REPLACES the first in-session player via `Map.set` instead of
coexisting with it: exactly one in-session player remains, with fresh
position, health 100 and score 0. -/
theorem rejoin_same_tag_replaces (tag : String) (rand : ℕ → ℚ) (cnt : ℕ) :
    (doubleJoin tag rand cnt).2.2.1 =
      (joinGame emptyGameState emptyStorage tag rand cnt).2.2.1 ∧
    (doubleJoin tag rand cnt).2.1 =
      (joinGame emptyGameState emptyStorage tag rand cnt).2.1 ∧
    (joinGame emptyGameState emptyStorage tag rand cnt).2.1.players.length = 1 ∧
    (doubleJoin tag rand cnt).1.players.length = 1 ∧
    (doubleJoin tag rand cnt).1.players.map PlayerState.health = [100] ∧
    (doubleJoin tag rand cnt).1.players.map PlayerState.score = [0] ∧
    (doubleJoin tag rand cnt).1.players.map PlayerState.x =
      [rand (joinGame emptyGameState emptyStorage tag rand cnt).2.2.2 * 800 + 100] ∧
    (doubleJoin tag rand cnt).1.players.map PlayerState.y =
      [rand ((joinGame emptyGameState emptyStorage tag rand cnt).2.2.2 + 1) * 600 + 100] := by
  simp [doubleJoin, joinGame, handlePlayerJoin, getPlayerByTag, createPlayer,
    joinPlayer, playerMapSet, statsSet, emptyGameState, emptyStorage]

/-- C8 counterexample: joining with tag "alice" from two connections yields a
world with ONE in-session player, not two distinct coexisting players. -/
theorem double_join_yields_single_player :
    (joinGame (joinGame emptyGameState emptyStorage "alice" (fun _ => 0) 0).1
      (joinGame emptyGameState emptyStorage "alice" (fun _ => 0) 0).2.1
      "alice" (fun _ => 0)
      (joinGame emptyGameState emptyStorage "alice" (fun _ => 0) 0).2.2.2).1.players.length
      = 1 := by
  simp [joinGame, handlePlayerJoin, getPlayerByTag, createPlayer, joinPlayer,
    playerMapSet, statsSet, emptyGameState, emptyStorage]

/-! ## C7 -/

/-- The `Math.random()` stream of the failing input: the first two draws
(used for the spawn position) return 0, all later draws (including the two
used for `lastPosition`) return 1/2. -/
def bugRand : ℕ → ℚ := fun n => if n < 2 then 0 else 1 / 2

/-- Context for the failing input: `Math.sqrt 250000 = 500`. -/
def bugCtx : TickCtx :=
  { rand := bugRand, sqrtFn := fun q => if q = 250000 then 500 else 0 }

/-- The player produced by the join handler on the failing input. -/
def bugJoinedPlayer : PlayerState := (joinPlayer "1" "alice" bugRand 0).1

/-- The world right after that join, with no further events. -/
def bugState : GameState :=
  { players := [bugJoinedPlayer], environment := [], statsDamage := [("1", 0)],
    statsDistance := [("1", 0)] }

/-- C7 (code bug): the join handler initializes `lastPosition` from two FRESH
`Math.random()` draws instead of the spawn position, so a player that never
moves accrues walked distance on its first tick: the spawn here is
(100, 100) while `lastPosition` is (500, 400), and after one tick with no
`move` events `distanceWalked` equals 500 — the distance between two
unrelated random points — although the player's position never changed. -/
theorem join_then_idle_accrues_distance :
    bugJoinedPlayer.x = 100 ∧ bugJoinedPlayer.y = 100 ∧
    bugJoinedPlayer.lastPosition = some (500, 400) ∧
    bugJoinedPlayer.distanceWalked = 0 ∧
    (updateGameState bugCtx bugState 0).1.players.map PlayerState.distanceWalked = [500] ∧
    (updateGameState bugCtx bugState 0).1.players.map PlayerState.x = [100] ∧
    (updateGameState bugCtx bugState 0).1.players.map PlayerState.y = [100] := by
  norm_num [updateGameState, updateEnvironment, shouldRemove, playerTick,
    combatPass, applyPlayerHit, envPass, envCollisions, statsSet, bugState,
    bugJoinedPlayer, joinPlayer, bugRand, bugCtx, List.range_succ]

/-! ## C1 -/

/-- Every in-session player's health is strictly positive and at most 100. -/
def HealthOK (st : GameState) : Prop :=
  ∀ p ∈ st.players, 0 < p.health ∧ p.health ≤ 100

instance (st : GameState) : Decidable (HealthOK st) := by
  unfold HealthOK; infer_instance

/-- Setting one in-bounds element preserves the health bounds of a player
list. -/
theorem healthOKL_set {ps : List PlayerState} {a : PlayerState} {i : ℕ}
    (h : ∀ p ∈ ps, 0 < p.health ∧ p.health ≤ 100)
    (ha : 0 < a.health ∧ a.health ≤ 100) :
    ∀ p ∈ ps.set i a, 0 < p.health ∧ p.health ≤ 100 := by
  intro p hp
  rcases List.mem_or_eq_of_mem_set hp with hmem | rfl
  · exact h p hmem
  · exact ha

/-- One combat-hit application preserves the health bounds: the defender
either survives with positive health or is respawned at 100. -/
theorem applyPlayerHit_healthOK (ctx : TickCtx) (st : GameState) (cnt i j : ℕ)
    (h : HealthOK st) : HealthOK (applyPlayerHit ctx st cnt i j).1 := by
  rcases hi : st.players[i]? with _ | p
  · simp only [applyPlayerHit, hi]; exact h
  rcases hj : st.players[j]? with _ | q
  · simp only [applyPlayerHit, hi, hj]; exact h
  have hpmem := getElem?_some_mem hi
  have hqmem := getElem?_some_mem hj
  obtain ⟨hp0, hp100⟩ := h p hpmem
  obtain ⟨hq0, hq100⟩ := h q hqmem
  simp only [applyPlayerHit, hi, hj]
  split_ifs with h1 h2 h3
  · exact h
  · -- defeat branch: defender reset to 100
    exact healthOKL_set (healthOKL_set h ⟨hp0, hp100⟩) (by norm_num)
  · -- survival branch: 0 < q.health - 10 from the branch condition
    refine healthOKL_set (healthOKL_set h ⟨hp0, hp100⟩) ⟨?_, ?_⟩
    · simpa using not_le.mp h3
    · simp only
      linarith
  · exact h

/-- The inner combat fold preserves the health bounds. -/
theorem combat_foldl_healthOK (ctx : TickCtx) (i : ℕ) (js : List ℕ) :
    ∀ (st : GameState) (cnt : ℕ), HealthOK st →
      HealthOK ((js.foldl (fun acc j => applyPlayerHit ctx acc.1 acc.2 i j) (st, cnt)).1) := by
  induction js with
  | nil => intro st cnt h; exact h
  | cons j js ih =>
    intro st cnt h
    rw [List.foldl_cons]
    exact ih _ _ (applyPlayerHit_healthOK ctx st cnt i j h)

/-- `combatPass` preserves the health bounds. -/
theorem combatPass_healthOK (ctx : TickCtx) (st : GameState) (cnt i : ℕ)
    (h : HealthOK st) : HealthOK (combatPass ctx st cnt i).1 :=
  combat_foldl_healthOK ctx i (List.range st.players.length) st cnt h

/-- `envHit` never changes the player's health. -/
theorem envHit_player_health (p : PlayerState) (o : EnvironmentObject) :
    (envHit p o).1.health = p.health := by
  unfold envHit; split_ifs <;> rfl

/-- `envCollisions` never changes the player's health. -/
theorem envCollisions_player_health (p : PlayerState)
    (env : List EnvironmentObject) :
    (envCollisions p env).1.health = p.health := by
  induction env generalizing p with
  | nil => rfl
  | cons o os ih =>
    simp only [envCollisions]
    rw [ih, envHit_player_health]

/-- The environment collision pass preserves the health bounds. -/
theorem envPass_healthOK (st : GameState) (i : ℕ) (h : HealthOK st) :
    HealthOK (envPass st i) := by
  unfold envPass
  rcases hi : st.players[i]? with _ | p
  · exact h
  simp only
  refine healthOKL_set h ?_
  rw [envCollisions_player_health]
  exact h p (getElem?_some_mem hi)

/-- One outer-loop body (`playerTick`) preserves the health bounds. -/
theorem playerTick_healthOK (ctx : TickCtx) (st : GameState) (cnt i : ℕ)
    (h : HealthOK st) : HealthOK (playerTick ctx st cnt i).1 := by
  rcases hi : st.players[i]? with _ | p
  · simp only [playerTick, hi]; exact h
  have hpmem := getElem?_some_mem hi
  rcases hlp : p.lastPosition with _ | lp
  · simp only [playerTick, hi, hlp]
    exact healthOKL_set h (h p hpmem)
  simp only [playerTick, hi, hlp]
  split_ifs with hc
  · exact envPass_healthOK _ _
      (combatPass_healthOK ctx _ cnt i (healthOKL_set h (h p hpmem)))
  · exact healthOKL_set h (h p hpmem)

/-- The outer player fold preserves the health bounds. -/
theorem tick_foldl_healthOK (ctx : TickCtx) (is : List ℕ) :
    ∀ (st : GameState) (cnt : ℕ), HealthOK st →
      HealthOK ((is.foldl (fun acc i => playerTick ctx acc.1 acc.2 i) (st, cnt)).1) := by
  induction is with
  | nil => intro st cnt h; exact h
  | cons i is ih =>
    intro st cnt h
    rw [List.foldl_cons]
    exact ih _ _ (playerTick_healthOK ctx st cnt i h)

/-- C1: if every player's health is in (0, 100] at the start of a tick, then
at the end of `updateGameState` every player's health is in [0, 100] and no
player is left with health ≤ 0 at the tick boundary (a defender whose health
drops to 0 or below is reset to 100 at a random position within the same
hit, the defeat branch of `applyPlayerHit`). -/
theorem tick_health_in_range (ctx : TickCtx) (st : GameState) (cnt : ℕ)
    (h : HealthOK st) :
    ∀ p ∈ (updateGameState ctx st cnt).1.players,
      0 ≤ p.health ∧ p.health ≤ 100 ∧ ¬ p.health ≤ 0 := by
  have h0 : HealthOK { st with environment := (updateEnvironment st.environment).1 } := h
  intro p hp
  have hall := tick_foldl_healthOK ctx
    (List.range ({ st with environment := (updateEnvironment st.environment).1 } : GameState).players.length)
    { st with environment := (updateEnvironment st.environment).1 } cnt h0
  obtain ⟨h1, h2⟩ := hall p hp
  exact ⟨le_of_lt h1, h2, not_le.mpr h1⟩

/-- A healthy one-player world used to instantiate `tick_health_in_range`. -/
def cexHealthyState : GameState :=
  { players := [cexChargingPlayer], environment := [], statsDamage := [],
    statsDistance := [] }

/-- Witness for `tick_health_in_range` on a concrete one-player world. -/
theorem tick_health_in_range_witness :
    HealthOK cexHealthyState ∧
    ∀ p ∈ (updateGameState ctx0 cexHealthyState 0).1.players,
      0 ≤ p.health ∧ p.health ≤ 100 ∧ ¬ p.health ≤ 0 :=
  ⟨by decide, tick_health_in_range ctx0 cexHealthyState 0 (by decide)⟩

/-! ## C2 -/

/-- C2: in a two-player world where the first player is charging, the second
is not, and the Euclidean distance between them is below the 50-unit
threshold, one tick decreases the defender's health by exactly the 10-point
charge damage (the defender surviving), increases the attacker's score and
damageDealt by exactly that damage, and leaves both players' isCharging flags
unchanged. -/
theorem charging_hit_applies_damage (ctx : TickCtx) (cnt : ℕ)
    (A B : PlayerState) (sd sw : List (String × ℚ)) (lpA lpB : ℚ × ℚ)
    (hid : A.id ≠ B.id)
    (hAc : A.isCharging = true) (hBc : B.isCharging = false)
    (hlpA : A.lastPosition = some lpA) (hlpB : B.lastPosition = some lpB)
    (hcol : ctx.sqrtFn ((A.x - B.x) * (A.x - B.x) + (A.y - B.y) * (A.y - B.y)) < 50)
    (hsurv : 10 < B.health) :
    let out := (updateGameState ctx
      { players := [A, B], environment := [], statsDamage := sd,
        statsDistance := sw } cnt).1
    out.players.map PlayerState.health = [A.health, B.health - 10] ∧
    out.players.map PlayerState.score = [A.score + 10, B.score] ∧
    out.players.map PlayerState.damageDealt = [A.damageDealt + 10, B.damageDealt] ∧
    out.players.map PlayerState.isCharging = [A.isCharging, B.isCharging] := by
  have hsurv2 : ¬ B.health - 10 ≤ 0 := by
    intro hle
    linarith
  simp only [updateGameState, updateEnvironment, List.filter_nil, List.map_nil,
    List.length_cons, List.length_nil, List.range_succ, List.range_zero,
    List.nil_append, List.append_nil, List.singleton_append, List.cons_append,
    List.foldl_cons, List.foldl_nil, playerTick, combatPass, applyPlayerHit,
    envPass, envCollisions, statsSet, List.getElem?_cons_zero,
    List.getElem?_cons_succ, List.set_cons_zero, List.set_cons_succ,
    hlpA, hlpB, hAc, hBc, hid, hcol, hsurv2, List.map_cons,
    if_true, if_false, ite_true, ite_false]
  simp [hAc, hBc]

/-- A concrete non-charging victim 30 units from `cexChargingPlayer`. -/
def cexVictim : PlayerState :=
  { id := "b", tag := "sheep", x := 40, y := 10, direction := 0, health := 100,
    score := 3, isCharging := false, damageDealt := 2, distanceWalked := 0,
    lastPosition := some (40, 10) }

/-- A context whose square root returns 30 everywhere (the distance between
the two concrete players below). -/
def ctx30 : TickCtx := { rand := fun _ => 0, sqrtFn := fun _ => 30 }

/-- Witness for `charging_hit_applies_damage` on two concrete players at
distance 30. -/
theorem charging_hit_applies_damage_witness :
    (cexChargingPlayer.id ≠ cexVictim.id ∧
     cexChargingPlayer.isCharging = true ∧ cexVictim.isCharging = false ∧
     cexChargingPlayer.lastPosition = some (10, 10) ∧
     cexVictim.lastPosition = some (40, 10) ∧
     ctx30.sqrtFn ((cexChargingPlayer.x - cexVictim.x) * (cexChargingPlayer.x - cexVictim.x) +
       (cexChargingPlayer.y - cexVictim.y) * (cexChargingPlayer.y - cexVictim.y)) < 50 ∧
     10 < cexVictim.health) ∧
    (let out := (updateGameState ctx30
      { players := [cexChargingPlayer, cexVictim], environment := [],
        statsDamage := [], statsDistance := [] } 0).1
     out.players.map PlayerState.health = [cexChargingPlayer.health, cexVictim.health - 10] ∧
     out.players.map PlayerState.score = [cexChargingPlayer.score + 10, cexVictim.score] ∧
     out.players.map PlayerState.damageDealt = [cexChargingPlayer.damageDealt + 10, cexVictim.damageDealt] ∧
     out.players.map PlayerState.isCharging = [cexChargingPlayer.isCharging, cexVictim.isCharging]) :=
  ⟨⟨by decide, rfl, rfl, rfl, rfl, by decide, by decide⟩,
   charging_hit_applies_damage ctx30 0 cexChargingPlayer cexVictim [] [] (10, 10) (40, 10)
     (by decide) rfl rfl rfl rfl (by decide) (by decide)⟩

/-! ## C3 -/

/-- C3: when a charging attacker's hit brings the defender's health to 0 or
below, the defender is respawned within that same hit — health reset to 100
and position redrawn from the random stream, landing in the spawn rectangle
[100,900)×[100,700) whenever the draws lie in [0,1) — and the attacker's
score increases by the 10-point damage plus the 50-point defeat bonus while
damageDealt increases only by the 10-point damage. -/
theorem defeat_respawns_and_scores (ctx : TickCtx) (cnt : ℕ)
    (A B : PlayerState) (sd sw : List (String × ℚ)) (lpA lpB : ℚ × ℚ)
    (hid : A.id ≠ B.id)
    (hAc : A.isCharging = true) (hBc : B.isCharging = false)
    (hlpA : A.lastPosition = some lpA) (hlpB : B.lastPosition = some lpB)
    (hcol : ctx.sqrtFn ((A.x - B.x) * (A.x - B.x) + (A.y - B.y) * (A.y - B.y)) < 50)
    (hdead : B.health ≤ 10)
    (hr0 : 0 ≤ ctx.rand cnt) (hr0b : ctx.rand cnt < 1)
    (hr1 : 0 ≤ ctx.rand (cnt + 1)) (hr1b : ctx.rand (cnt + 1) < 1) :
    let out := (updateGameState ctx
      { players := [A, B], environment := [], statsDamage := sd,
        statsDistance := sw } cnt).1
    out.players.map PlayerState.health = [A.health, 100] ∧
    out.players.map PlayerState.x = [A.x, ctx.rand cnt * 800 + 100] ∧
    out.players.map PlayerState.y = [A.y, ctx.rand (cnt + 1) * 600 + 100] ∧
    out.players.map PlayerState.score = [A.score + 10 + 50, B.score] ∧
    out.players.map PlayerState.damageDealt = [A.damageDealt + 10, B.damageDealt] ∧
    100 ≤ ctx.rand cnt * 800 + 100 ∧ ctx.rand cnt * 800 + 100 < 900 ∧
    100 ≤ ctx.rand (cnt + 1) * 600 + 100 ∧ ctx.rand (cnt + 1) * 600 + 100 < 700 := by
  have hdead2 : B.health - 10 ≤ 0 := by linarith
  have hb1 : 100 ≤ ctx.rand cnt * 800 + 100 := by nlinarith
  have hb2 : ctx.rand cnt * 800 + 100 < 900 := by nlinarith
  have hb3 : 100 ≤ ctx.rand (cnt + 1) * 600 + 100 := by nlinarith
  have hb4 : ctx.rand (cnt + 1) * 600 + 100 < 700 := by nlinarith
  simp only [updateGameState, updateEnvironment, List.filter_nil, List.map_nil,
    List.length_cons, List.length_nil, List.range_succ, List.range_zero,
    List.nil_append, List.append_nil, List.singleton_append, List.cons_append,
    List.foldl_cons, List.foldl_nil, playerTick, combatPass, applyPlayerHit,
    envPass, envCollisions, statsSet, List.getElem?_cons_zero,
    List.getElem?_cons_succ, List.set_cons_zero, List.set_cons_succ,
    hlpA, hlpB, hAc, hBc, hid, hcol, hdead2, List.map_cons,
    if_true, if_false, ite_true, ite_false]
  simp [hAc, hBc, hb1, hb2, hb3, hb4]

/-- A concrete victim at distance 30 with only 5 health. -/
def cexWeakVictim : PlayerState :=
  { id := "b", tag := "sheep", x := 40, y := 10, direction := 0, health := 5,
    score := 3, isCharging := false, damageDealt := 2, distanceWalked := 0,
    lastPosition := some (40, 10) }

/-- Witness for `defeat_respawns_and_scores`: the 5-health victim is hit for
10 and respawned. -/
theorem defeat_respawns_and_scores_witness :
    (cexChargingPlayer.id ≠ cexWeakVictim.id ∧
     cexChargingPlayer.isCharging = true ∧ cexWeakVictim.isCharging = false ∧
     cexChargingPlayer.lastPosition = some (10, 10) ∧
     cexWeakVictim.lastPosition = some (40, 10) ∧
     ctx30.sqrtFn ((cexChargingPlayer.x - cexWeakVictim.x) * (cexChargingPlayer.x - cexWeakVictim.x) +
       (cexChargingPlayer.y - cexWeakVictim.y) * (cexChargingPlayer.y - cexWeakVictim.y)) < 50 ∧
     cexWeakVictim.health ≤ 10 ∧
     (0:ℚ) ≤ ctx30.rand 0 ∧ ctx30.rand 0 < 1 ∧
     (0:ℚ) ≤ ctx30.rand (0 + 1) ∧ ctx30.rand (0 + 1) < 1) ∧
    (let out := (updateGameState ctx30
      { players := [cexChargingPlayer, cexWeakVictim], environment := [],
        statsDamage := [], statsDistance := [] } 0).1
     out.players.map PlayerState.health = [cexChargingPlayer.health, 100] ∧
     out.players.map PlayerState.x = [cexChargingPlayer.x, ctx30.rand 0 * 800 + 100] ∧
     out.players.map PlayerState.y = [cexChargingPlayer.y, ctx30.rand (0 + 1) * 600 + 100] ∧
     out.players.map PlayerState.score = [cexChargingPlayer.score + 10 + 50, cexWeakVictim.score] ∧
     out.players.map PlayerState.damageDealt = [cexChargingPlayer.damageDealt + 10, cexWeakVictim.damageDealt] ∧
     100 ≤ ctx30.rand 0 * 800 + 100 ∧ ctx30.rand 0 * 800 + 100 < 900 ∧
     100 ≤ ctx30.rand (0 + 1) * 600 + 100 ∧ ctx30.rand (0 + 1) * 600 + 100 < 700) :=
  ⟨⟨by decide, rfl, rfl, rfl, rfl, by decide, by decide, by decide, by decide,
    by decide, by decide⟩,
   defeat_respawns_and_scores ctx30 0 cexChargingPlayer cexWeakVictim [] []
     (10, 10) (40, 10) (by decide) rfl rfl rfl rfl (by decide) (by decide)
     (by decide) (by decide) (by decide) (by decide)⟩

/-! ## C5 (amended) -/

/-- Two environment objects agreeing on everything except possibly health:
same id, type, box and respawn delay. -/
def SameShape (o o2 : EnvironmentObject) : Prop :=
  o2.id = o.id ∧ o2.type = o.type ∧ o2.x = o.x ∧ o2.y = o.y ∧
  o2.width = o.width ∧ o2.height = o.height ∧ o2.respawnTime = o.respawnTime

/-- `SameShape` is reflexive. -/
theorem sameShape_rfl (o : EnvironmentObject) : SameShape o o :=
  ⟨rfl, rfl, rfl, rfl, rfl, rfl, rfl⟩

/-- `SameShape` is transitive. -/
theorem sameShape_trans {a b c : EnvironmentObject}
    (h1 : SameShape a b) (h2 : SameShape b c) : SameShape a c := by
  obtain ⟨e1, e2, e3, e4, e5, e6, e7⟩ := h1
  obtain ⟨f1, f2, f3, f4, f5, f6, f7⟩ := h2
  exact ⟨f1.trans e1, f2.trans e2, f3.trans e3, f4.trans e4, f5.trans e5,
    f6.trans e6, f7.trans e7⟩

/-- Pointwise `SameShape` between a list and itself. -/
theorem forall2_shape_rfl (l : List EnvironmentObject) :
    List.Forall₂ SameShape l l := by
  induction l with
  | nil => exact List.Forall₂.nil
  | cons o os ih => exact List.Forall₂.cons (sameShape_rfl o) ih

/-- Pointwise `SameShape` is transitive. -/
theorem forall2_shape_trans : ∀ {l1 l2 l3 : List EnvironmentObject},
    List.Forall₂ SameShape l1 l2 → List.Forall₂ SameShape l2 l3 →
    List.Forall₂ SameShape l1 l3 := by
  intro l1 l2 l3 h1 h2
  induction h1 generalizing l3 with
  | nil => cases h2; exact List.Forall₂.nil
  | cons hab h1x ih =>
    cases h2 with
    | cons hbc h2x => exact List.Forall₂.cons (sameShape_trans hab hbc) (ih h2x)

/-- A member of the left list of a pointwise `SameShape` pair has a
same-shaped counterpart in the right list. -/
theorem forall2_shape_mem {l l2 : List EnvironmentObject}
    {o : EnvironmentObject} (h : List.Forall₂ SameShape l l2) (hm : o ∈ l) :
    ∃ o2 ∈ l2, SameShape o o2 := by
  induction h with
  | nil => cases hm
  | cons hab hx ih =>
    rcases List.mem_cons.mp hm with rfl | hm2
    · exact ⟨_, List.mem_cons_self _ _, hab⟩
    · obtain ⟨o2, ho2, hs⟩ := ih hm2
      exact ⟨o2, List.mem_cons_of_mem _ ho2, hs⟩

/-- `envHit` changes at most the object's health. -/
theorem envHit_shape (p : PlayerState) (o : EnvironmentObject) :
    SameShape o (envHit p o).2 := by
  unfold envHit
  split_ifs <;> exact ⟨rfl, rfl, rfl, rfl, rfl, rfl, rfl⟩

/-- `envCollisions` changes at most the objects' healths. -/
theorem envCollisions_shape (p : PlayerState) (env : List EnvironmentObject) :
    List.Forall₂ SameShape env (envCollisions p env).2 := by
  induction env generalizing p with
  | nil => exact List.Forall₂.nil
  | cons o os ih =>
    simp only [envCollisions]
    exact List.Forall₂.cons (envHit_shape p o) (ih _)

/-- Combat never touches the environment. -/
theorem applyPlayerHit_env (ctx : TickCtx) (st : GameState) (cnt i j : ℕ) :
    (applyPlayerHit ctx st cnt i j).1.environment = st.environment := by
  rcases hi : st.players[i]? with _ | p
  · simp only [applyPlayerHit, hi]
  rcases hj : st.players[j]? with _ | q
  · simp only [applyPlayerHit, hi, hj]
  simp only [applyPlayerHit, hi, hj]
  split_ifs <;> rfl

/-- The combat fold never touches the environment. -/
theorem combat_foldl_env (ctx : TickCtx) (i : ℕ) (js : List ℕ) :
    ∀ (st : GameState) (cnt : ℕ),
      ((js.foldl (fun acc j => applyPlayerHit ctx acc.1 acc.2 i j)
        (st, cnt)).1).environment = st.environment := by
  induction js with
  | nil => intro st cnt; rfl
  | cons j js ih =>
    intro st cnt
    rw [List.foldl_cons]
    exact (ih _ _).trans (applyPlayerHit_env ctx st cnt i j)

/-- `combatPass` never touches the environment. -/
theorem combatPass_env (ctx : TickCtx) (st : GameState) (cnt i : ℕ) :
    (combatPass ctx st cnt i).1.environment = st.environment :=
  combat_foldl_env ctx i (List.range st.players.length) st cnt

/-- `envPass` changes at most the objects' healths. -/
theorem envPass_shape (st : GameState) (i : ℕ) :
    List.Forall₂ SameShape st.environment (envPass st i).environment := by
  rcases hi : st.players[i]? with _ | p
  · simp only [envPass, hi]
    exact forall2_shape_rfl _
  · simp only [envPass, hi]
    exact envCollisions_shape p st.environment

/-- Combat followed by the environment pass changes at most healths. -/
theorem envPass_combat_shape (ctx : TickCtx) (st0 : GameState) (cnt i : ℕ)
    (env0 : List EnvironmentObject) (henv : st0.environment = env0) :
    List.Forall₂ SameShape env0
      ((envPass (combatPass ctx st0 cnt i).1 i).environment) := by
  have h2 := envPass_shape (combatPass ctx st0 cnt i).1 i
  rw [combatPass_env, henv] at h2
  exact h2

/-- One outer-loop body changes at most the objects' healths. -/
theorem playerTick_shape (ctx : TickCtx) (st : GameState) (cnt i : ℕ) :
    List.Forall₂ SameShape st.environment (playerTick ctx st cnt i).1.environment := by
  rcases hi : st.players[i]? with _ | p
  · simp only [playerTick, hi]
    exact forall2_shape_rfl _
  rcases hlp : p.lastPosition with _ | lp
  · simp only [playerTick, hi, hlp]
    exact forall2_shape_rfl _
  simp only [playerTick, hi, hlp]
  split_ifs with hc
  · dsimp only
    exact envPass_combat_shape ctx _ cnt i st.environment rfl
  · exact forall2_shape_rfl _

/-- The outer player fold changes at most the objects' healths. -/
theorem tick_foldl_shape (ctx : TickCtx) (is : List ℕ) :
    ∀ (st : GameState) (cnt : ℕ),
      List.Forall₂ SameShape st.environment
        ((is.foldl (fun acc i => playerTick ctx acc.1 acc.2 i) (st, cnt)).1.environment) := by
  induction is with
  | nil => intro st cnt; exact forall2_shape_rfl _
  | cons i is ih =>
    intro st cnt
    rw [List.foldl_cons]
    exact forall2_shape_trans (playerTick_shape ctx st cnt i) (ih _ _)

/-- C5 (amended): an object with no respawn delay is NEVER removed from the
active set, destroyed or not: after any tick the broadcast environment still
contains an object with the same id, type, box and (absent) respawn delay;
and the tick only ever schedules respawns for objects whose respawn delay is
set, so such an object is also never scheduled for respawn. -/
theorem no_respawn_object_never_removed (ctx : TickCtx) (st : GameState)
    (cnt : ℕ) (obj : EnvironmentObject)
    (hmem : obj ∈ st.environment) (hnone : obj.respawnTime = none) :
    (∃ obj2 ∈ (updateGameState ctx st cnt).1.environment, SameShape obj obj2) ∧
    ∀ e ∈ (updateGameState ctx st cnt).2.2, (e.2).respawnTime.isSome = true := by
  constructor
  · have hkeep : obj ∈ (updateEnvironment st.environment).1 := by
      rw [updateEnvironment]
      refine List.mem_filter.mpr ⟨hmem, ?_⟩
      simp [shouldRemove, hnone]
    have hshape := tick_foldl_shape ctx
      (List.range ({ st with environment := (updateEnvironment st.environment).1 } : GameState).players.length)
      { st with environment := (updateEnvironment st.environment).1 } cnt
    exact forall2_shape_mem hshape hkeep
  · intro e he
    simp only [updateGameState, updateEnvironment, List.mem_map] at he
    obtain ⟨o, ho, rfl⟩ := he
    have hrem := (List.mem_filter.mp ho).2
    rw [shouldRemove] at hrem
    simp only [Bool.and_eq_true] at hrem
    simpa [respawnedObject] using hrem.2

/-- Witness for `no_respawn_object_never_removed` at the destroyed house. -/
theorem no_respawn_object_never_removed_witness :
    (cexDeadHouse ∈ cexDeadHouseState.environment ∧
     cexDeadHouse.respawnTime = none) ∧
    ((∃ obj2 ∈ (updateGameState ctx0 cexDeadHouseState 0).1.environment,
        SameShape cexDeadHouse obj2) ∧
     ∀ e ∈ (updateGameState ctx0 cexDeadHouseState 0).2.2,
       (e.2).respawnTime.isSome = true) :=
  ⟨⟨by decide, rfl⟩,
   no_respawn_object_never_removed ctx0 cexDeadHouseState 0 cexDeadHouse
     (by decide) rfl⟩

/-! ## C9 (amended) -/

/-- C9 (amended): every fence in the generated environment is created with
health 100 and no respawn delay. Fences are NOT indestructible — a charging
player whose hit radius overlaps a fence lowers its health by 5, like any
other object — but because a fence has no respawn delay the tick filter
never removes it from the active set, whatever its current health, and the
tick never schedules it for respawn. -/
theorem fences_damaged_but_never_removed (piV : ℚ) (cosFn sinFn : ℚ → ℚ)
    (rand : ℕ → ℚ) (p : PlayerState) (obj : EnvironmentObject)
    (hmem : obj ∈ generateInitialEnvironment piV cosFn sinFn rand)
    (hty : obj.type = EntityType.fence) :
    obj.respawnTime = none ∧ obj.health = 100 ∧
    ((envHit p obj).2.health =
      if Overlap p obj ∧ p.isCharging = true then obj.health - 5 else obj.health) ∧
    (∀ h : ℚ, shouldRemove { obj with health := h } = false) ∧
    (∀ env : List EnvironmentObject, obj ∈ env →
      obj ∈ (updateEnvironment env).1 ∧
      ∀ e ∈ (updateEnvironment env).2, (e.2).respawnTime ≠ obj.respawnTime) := by
  have hkey : obj.respawnTime = none ∧ obj.health = 100 := by
    unfold generateInitialEnvironment at hmem
    simp only [List.mem_append, List.mem_flatMap, List.mem_map, List.mem_range,
      List.mem_cons, List.not_mem_nil, or_false] at hmem
    rcases hmem with ((((⟨i, hi, hobj | hobj⟩ | ⟨i, hi, hobj | hobj⟩) |
      ⟨i, hi, hobj⟩) | ⟨i, hi, hobj⟩) | ⟨i, hi, hobj⟩) | ⟨i, hi, hobj⟩ <;>
      subst hobj
    · exact ⟨rfl, rfl⟩
    · exact ⟨rfl, rfl⟩
    · exact ⟨rfl, rfl⟩
    · exact ⟨rfl, rfl⟩
    · simp at hty
    · simp at hty
    · simp at hty
    · simp at hty
  obtain ⟨hnone, h100⟩ := hkey
  refine ⟨hnone, h100, ?_, ?_, ?_⟩
  · unfold envHit
    split_ifs with h1 h2 <;> simp_all
  · intro h
    simp [shouldRemove, hnone]
  · intro env hin
    constructor
    · rw [updateEnvironment]
      refine List.mem_filter.mpr ⟨hin, ?_⟩
      simp [shouldRemove, hnone]
    · intro e he
      rw [updateEnvironment] at he
      simp only [List.mem_map] at he
      obtain ⟨o, ho, rfl⟩ := he
      have hrem := (List.mem_filter.mp ho).2
      rw [shouldRemove] at hrem
      simp only [Bool.and_eq_true] at hrem
      rw [hnone]
      simp only [respawnedObject]
      intro hcontra
      rw [hcontra] at hrem
      simp at hrem

/-- The first fence produced by `generateInitialEnvironment` (written exactly
as generated, so that it is the literal head of the generated list). -/
def genFence0 : EnvironmentObject :=
  { id := "fence-top-" ++ toString (100 * 0), type := EntityType.fence,
    x := ((100 * 0 : ℕ) : ℚ), y := 0, width := 100, height := 20,
    health := 100, respawnTime := none }

/-- Witness for `fences_damaged_but_never_removed` at the first generated
fence and a concrete charging player. -/
theorem fences_damaged_but_never_removed_witness :
    (genFence0 ∈ generateInitialEnvironment 0 (fun _ => 0) (fun _ => 0) (fun _ => 0) ∧
     genFence0.type = EntityType.fence) ∧
    (genFence0.respawnTime = none ∧ genFence0.health = 100 ∧
     ((envHit cexChargingPlayer genFence0).2.health =
       if Overlap cexChargingPlayer genFence0 ∧ cexChargingPlayer.isCharging = true
       then genFence0.health - 5 else genFence0.health) ∧
     (∀ h : ℚ, shouldRemove { genFence0 with health := h } = false) ∧
     (∀ env : List EnvironmentObject, genFence0 ∈ env →
       genFence0 ∈ (updateEnvironment env).1 ∧
       ∀ e ∈ (updateEnvironment env).2, (e.2).respawnTime ≠ genFence0.respawnTime)) :=
  ⟨⟨List.Mem.head _, rfl⟩,
   fences_damaged_but_never_removed 0 (fun _ => 0) (fun _ => 0) (fun _ => 0)
     cexChargingPlayer genFence0 (List.Mem.head _) rfl⟩
